import Mathlib

/-!
Shallow embedding of the zappix data hooks:
`src/src/hooks/useUserImagePosts.ts` (image-post validation, the shared
discovery pool, and the paginated query function) and the reactions hook
file (`useReactions`, `useReactToPost`, `useRemoveReaction`).

JavaScript strings are modelled by `String`, arrays by `List`, `undefined`
by `Option`, and JS truthiness of a string value by "nonempty".  External
collaborators (the relay pool, the signer, the query cache) are modelled by
passing their responses as inputs and recording the calls made to them as
explicit effect lists.
-/

namespace Zappix

/-- A Nostr event as used by the hooks: id, author pubkey, creation
timestamp, kind, content and a list of tag arrays. -/
structure NostrEvent where
  id : String
  pubkey : String
  created_at : Nat
  kind : Nat
  content : String
  tags : List (List String)
deriving Repr, DecidableEq

/-- Does `needle` occur as a contiguous sublist of `haystack`? -/
def charsInclude (haystack needle : List Char) : Bool :=
  match haystack with
  | [] => needle.isEmpty
  | _ :: rest => needle.isPrefixOf haystack || charsInclude rest needle

/-- JS `s.includes(pat)`: `pat` occurs as a substring of `s`. -/
def strIncludes (s pat : String) : Bool :=
  charsInclude s.data pat.data

/-- JS truthiness of an optional string: present and nonempty. -/
def optTruthy : Option String → Bool
  | none => false
  | some s => !(s == "")

/-- `tags.find(([name]) => name === tagName)`: the first tag whose head is
`tagName`. -/
def findTag (tagName : String) (tags : List (List String)) : Option (List String) :=
  tags.find? (fun t => t.head? == some tagName)

/-- `tags.find(([name]) => name === tagName)?.[1]`: the second element of the
first tag named `tagName`, when both exist. -/
def findTagValue (tagName : String) (tags : List (List String)) : Option String :=
  (findTag tagName tags).bind (fun t => t[1]?)

/-- `validateImageEvent` from `useUserImagePosts.ts`: kind must be 20; the
event must have a truthy `title` value or an `imeta` tag; and if the first
`imeta` tag carries a truthy value, that value must contain `"url"`. -/
def validateImageEvent (e : NostrEvent) : Bool :=
  if e.kind != 20 then false
  else
    let title := findTagValue "title" e.tags
    let imeta := findTag "imeta" e.tags
    if !(optTruthy title) && imeta.isNone then false
    else
      match imeta with
      | none => true
      | some tag =>
        match tag[1]? with
        | none => true
        | some v => if !(v == "") && !(strIncludes v "url") then false else true

/-- The predicate claimed by the spec for `validateImageEvent`, written from
the claim's words: kind 20 and (a title tag with a value, or an imeta tag
whose value contains `"url"`). -/
def imageEventClaimSpec (e : NostrEvent) : Bool :=
  (e.kind == 20) &&
  (optTruthy (findTagValue "title" e.tags) ||
    (match findTagValue "imeta" e.tags with
     | some v => strIncludes v "url"
     | none => false))

/-- The amended predicate: kind 20, a truthy title value or an imeta tag
present, and if the first imeta tag has a truthy value it contains `"url"`. -/
def imageEventAmendedSpec (e : NostrEvent) : Bool :=
  (e.kind == 20) &&
  (optTruthy (findTagValue "title" e.tags) || (findTag "imeta" e.tags).isSome) &&
  (match (findTag "imeta" e.tags).bind (fun t => t[1]?) with
   | some v => (v == "") || strIncludes v "url"
   | none => true)

/-- A kind-20 event with a valid title but an imeta value lacking `"url"`:
the claimed predicate accepts it, the code rejects it. -/
def cexC1Event : NostrEvent :=
  { id := "x", pubkey := "a", created_at := 0, kind := 20, content := "",
    tags := [["title", "t"], ["imeta", "nope"]] }

/-- Claim C1 (counterexample): `validateImageEvent` is not equivalent to the
claimed predicate: on a kind-20 event with a title tag carrying a value and
an imeta tag whose value lacks "url", the code returns false while the
claimed predicate holds. -/
theorem C1_counterexample :
    validateImageEvent cexC1Event = false ∧ imageEventClaimSpec cexC1Event = true := by
  decide

/-- Claim C1 (amended): `validateImageEvent e` is true exactly when `e.kind`
is 20, `e` has a title tag with a nonempty value or some imeta tag, and the
first imeta tag's value, when present and nonempty, contains "url". -/
theorem C1_validateImageEvent_amended (e : NostrEvent) :
    validateImageEvent e = imageEventAmendedSpec e := by
  unfold validateImageEvent imageEventAmendedSpec
  cases hk : (e.kind == 20) with
  | false => simp [bne, hk]
  | true =>
    cases hi : findTag "imeta" e.tags with
    | none =>
      cases ht : optTruthy (findTagValue "title" e.tags) <;> simp [bne, hk, hi, ht]
    | some tag =>
      cases hv : tag[1]? with
      | none => simp [bne, hk, hi, hv]
      | some v =>
        by_cases he : v = "" <;> cases hu : strIncludes v "url" <;>
          simp [bne, hk, hi, hv, he, hu]

/-- The reduce in `useUserImagePosts` that deduplicates by event id: an
event is appended only when no earlier event in the accumulator shares its
id, so the first occurrence wins. -/
def dedupeById (es : List NostrEvent) : List NostrEvent :=
  es.foldl (fun acc e => if acc.any (fun x => x.id == e.id) then acc else acc ++ [e]) []

/-- The JS sort comparator `(a, b) => b.created_at - a.created_at` as a
boolean "a comes no later than b" relation: descending by timestamp. -/
def byCreatedAtDesc (a b : NostrEvent) : Bool :=
  b.created_at ≤ a.created_at

/-- The page-processing pipeline of `useUserImagePosts`: filter by
`validateImageEvent`, deduplicate by id, sort descending by `created_at`
(JS array sort is stable; modelled by a stable merge sort). -/
def processEvents (raw : List NostrEvent) : List NostrEvent :=
  (dedupeById (raw.filter validateImageEvent)).mergeSort byCreatedAtDesc

/-- A page returned by the infinite query: sorted events and the optional
pagination cursor. -/
structure Page where
  events : List NostrEvent
  nextCursor : Option Nat
deriving Repr, DecidableEq

/-- The fixed page limit requested by `useUserImagePosts` (`limit: 15`). -/
def imagePostsLimit : Nat := 15

/-- The relay filter built by the query function: kinds `[20]`, the author,
the limit, and optionally an upper timestamp bound from the prior cursor. -/
structure Filter where
  kinds : List Nat
  authors : List String
  limit : Nat
  untilTs : Option Nat
deriving Repr, DecidableEq

/-- The success path of the query function, given the raw relay response:
the processed events together with the next cursor.  The cursor is
`undefined` when the raw response is shorter than the limit; otherwise it is
`sortedEvents[sortedEvents.length - 1]?.created_at`. -/
def fetchImagePage (raw : List NostrEvent) : Page :=
  let sortedEvents := processEvents raw
  { events := sortedEvents
    nextCursor :=
      if raw.length < imagePostsLimit then none
      else (sortedEvents.getLast?).map (fun e => e.created_at) }

/-- The whole query function of `useUserImagePosts`, as a function of the
author key, the page parameter and the relay response.  It returns the page
together with the list of filters actually sent to the pool: with no pubkey
it returns an empty page and issues no query. -/
def userImagePostsQueryFn (pubkey : Option String) (pageParam : Option Nat)
    (response : List NostrEvent) : Page × List Filter :=
  match pubkey with
  | none => ({ events := [], nextCursor := none }, [])
  | some pk =>
      (fetchImagePage response,
       [{ kinds := [20], authors := [pk], limit := imagePostsLimit, untilTs := pageParam }])

/-- Claim C10: with an undefined pubkey the query function returns an empty
page with no cursor and sends no filter to the relay pool. -/
theorem C10_no_pubkey_no_query (pageParam : Option Nat) (response : List NostrEvent) :
    userImagePostsQueryFn none pageParam response = ({ events := [], nextCursor := none }, []) :=
  rfl

/-- A kind-20 event carrying neither a title nor an imeta tag: it passes the
relay filter (kind 20) but fails `validateImageEvent`. -/
def invalidImageEvent : NostrEvent :=
  { id := "bad", pubkey := "a", created_at := 10, kind := 20, content := "", tags := [] }

/-- Fifteen raw events, all failing validation: as many raw events as the
limit, yet the processed page is empty. -/
def cexC2Raw : List NostrEvent :=
  List.replicate 15 invalidImageEvent

/-- When every raw event fails validation the processed page is empty. -/
theorem processEvents_eq_nil (raw : List NostrEvent)
    (h : raw.filter validateImageEvent = []) : processEvents raw = [] := by
  unfold processEvents dedupeById
  rw [h]
  simp

/-- Claim C2 (counterexample): a fetch can return exactly `limit` raw events
(not fewer) and still produce an absent `nextCursor`, because every raw
event fails validation and the sorted page is empty. -/
theorem C2_counterexample :
    (fetchImagePage cexC2Raw).nextCursor = none ∧ ¬ (cexC2Raw.length < imagePostsLimit) := by
  have h : processEvents cexC2Raw = [] := processEvents_eq_nil _ (by decide)
  refine ⟨?_, by decide⟩
  simp [fetchImagePage, h]

/-- Claim C2 (amended): `nextCursor` is absent exactly when the raw fetch
returned fewer events than the limit or the validated, deduplicated page is
empty; when present it equals the `created_at` of the last (oldest) sorted
event. -/
theorem C2_nextCursor_amended (raw : List NostrEvent) :
    ((fetchImagePage raw).nextCursor = none ↔
      (raw.length < imagePostsLimit ∨ (fetchImagePage raw).events = [])) ∧
    (∀ c, (fetchImagePage raw).nextCursor = some c →
      ((fetchImagePage raw).events.getLast?).map (fun e => e.created_at) = some c) := by
  unfold fetchImagePage
  by_cases hlen : raw.length < imagePostsLimit
  · simp [hlen]
  · simp [hlen]

/-- A valid kind-20 image event with a title tag, timestamp 5. -/
def goodImageEvent : NostrEvent :=
  { id := "g", pubkey := "a", created_at := 5, kind := 20, content := "",
    tags := [["title", "t"]] }

/-- Fourteen invalid raw events followed by one valid one: raw length equals
the limit and the processed page is the single valid event. -/
def witC2Raw : List NostrEvent :=
  List.replicate 14 invalidImageEvent ++ [goodImageEvent]

/-- Processing the witness raw list yields exactly the one valid event. -/
theorem processEvents_witC2Raw : processEvents witC2Raw = [goodImageEvent] := by
  have hfil : witC2Raw.filter validateImageEvent = [goodImageEvent] := by decide
  unfold processEvents dedupeById
  rw [hfil]
  simp

theorem C2_nextCursor_amended_witness :
    ((fetchImagePage witC2Raw).events.getLast?).map (fun e => e.created_at) = some 5 := by
  apply (C2_nextCursor_amended witC2Raw).2 5
  have hlen : ¬ (witC2Raw.length < imagePostsLimit) := by decide
  show (if witC2Raw.length < imagePostsLimit then none
        else ((processEvents witC2Raw).getLast?).map (fun e => e.created_at)) = some 5
  rw [if_neg hlen, processEvents_witC2Raw]
  rfl

/-- The deduplicating fold preserves pairwise-distinct ids of the
accumulator. -/
theorem dedupe_foldl_pairwise (l : List NostrEvent) (acc : List NostrEvent)
    (h : acc.Pairwise (fun a b => a.id ≠ b.id)) :
    (l.foldl (fun acc e => if acc.any (fun x => x.id == e.id) then acc else acc ++ [e]) acc).Pairwise
      (fun a b => a.id ≠ b.id) := by
  induction l generalizing acc with
  | nil => exact h
  | cons e l ih =>
    simp only [List.foldl_cons]
    by_cases hmem : (acc.any fun x => x.id == e.id) = true
    · rw [if_pos hmem]
      exact ih _ h
    · rw [if_neg hmem]
      apply ih
      rw [List.pairwise_append]
      refine ⟨h, List.pairwise_singleton _ _, ?_⟩
      intro a ha b hb heq
      rcases List.mem_singleton.1 hb with rfl
      apply hmem
      rw [List.any_eq_true]
      exact ⟨a, ha, by simp [heq]⟩

/-- Every output of the deduplicating fold comes from the accumulator or the
input list. -/
theorem dedupe_foldl_mem (l : List NostrEvent) (acc : List NostrEvent) (x : NostrEvent)
    (hx : x ∈ l.foldl (fun acc e => if acc.any (fun y => y.id == e.id) then acc else acc ++ [e]) acc) :
    x ∈ acc ∨ x ∈ l := by
  induction l generalizing acc with
  | nil => exact .inl hx
  | cons e l ih =>
    simp only [List.foldl_cons] at hx
    by_cases hmem : (acc.any fun y => y.id == e.id) = true
    · rw [if_pos hmem] at hx
      rcases ih _ hx with h | h
      · exact .inl h
      · exact .inr (List.mem_cons_of_mem _ h)
    · rw [if_neg hmem] at hx
      rcases ih _ hx with h | h
      · rcases List.mem_append.1 h with h | h
        · exact .inl h
        · rcases List.mem_singleton.1 h with rfl
          exact .inr (List.mem_cons_self _ _)
      · exact .inr (List.mem_cons_of_mem _ h)

theorem dedupeById_pairwise (l : List NostrEvent) :
    (dedupeById l).Pairwise (fun a b => a.id ≠ b.id) :=
  dedupe_foldl_pairwise l [] List.Pairwise.nil

theorem mem_of_mem_dedupeById (l : List NostrEvent) (x : NostrEvent)
    (hx : x ∈ dedupeById l) : x ∈ l := by
  rcases dedupe_foldl_mem l [] x hx with h | h
  · cases h
  · exact h

theorem byCreatedAtDesc_trans (a b c : NostrEvent) :
    byCreatedAtDesc a b → byCreatedAtDesc b c → byCreatedAtDesc a c := by
  simp only [byCreatedAtDesc, decide_eq_true_eq]
  omega

theorem byCreatedAtDesc_total (a b : NostrEvent) :
    byCreatedAtDesc a b || byCreatedAtDesc b a := by
  simp only [byCreatedAtDesc, Bool.or_eq_true, decide_eq_true_eq]
  omega

/-- Claim C3: every page consists of events pairwise distinct by id, ordered
non-increasing by `created_at`, each passing `validateImageEvent` and drawn
from the raw response. -/
theorem C3_page_invariants (raw : List NostrEvent) :
    ((fetchImagePage raw).events.Pairwise (fun a b => a.id ≠ b.id)) ∧
    ((fetchImagePage raw).events.Pairwise (fun a b => b.created_at ≤ a.created_at)) ∧
    (∀ e ∈ (fetchImagePage raw).events, validateImageEvent e = true ∧ e ∈ raw) := by
  have hev : (fetchImagePage raw).events = processEvents raw := rfl
  rw [hev]
  have hperm : List.Perm (processEvents raw) (dedupeById (raw.filter validateImageEvent)) :=
    List.mergeSort_perm _ _
  refine ⟨?_, ?_, ?_⟩
  · exact (hperm.pairwise_iff (fun h => Ne.symm h)).2
      (dedupeById_pairwise (raw.filter validateImageEvent))
  · have hs : (processEvents raw).Pairwise (fun a b => byCreatedAtDesc a b) :=
      List.sorted_mergeSort byCreatedAtDesc_trans byCreatedAtDesc_total _
    exact hs.imp (fun h => by simpa [byCreatedAtDesc] using h)
  · intro e he
    have h1 : e ∈ dedupeById (raw.filter validateImageEvent) := hperm.mem_iff.1 he
    have h2 : e ∈ raw.filter validateImageEvent := mem_of_mem_dedupeById _ _ h1
    have h3 := List.mem_filter.1 h2
    exact ⟨h3.2, h3.1⟩

theorem C3_page_invariants_witness :
    validateImageEvent goodImageEvent = true ∧ goodImageEvent ∈ witC2Raw := by
  apply (C3_page_invariants witC2Raw).2.2 goodImageEvent
  show goodImageEvent ∈ processEvents witC2Raw
  rw [processEvents_witC2Raw]
  exact List.mem_singleton.2 rfl

/-- A source feeding an `AbortSignal`: the caller-provided token or a fixed
timeout in milliseconds. -/
inductive AbortSource where
  | caller
  | timeout (ms : Nat)
deriving Repr, DecidableEq

/-- The observable state of the environment a signal reacts to: whether the
caller's token has fired, and the elapsed time in milliseconds. -/
structure SignalState where
  callerAborted : Bool
  elapsedMs : Nat

/-- `AbortSignal.any(sources)`: aborted as soon as any source fires. -/
def signalAborted (sources : List AbortSource) (st : SignalState) : Bool :=
  sources.any fun s =>
    match s with
    | .caller => st.callerAborted
    | .timeout ms => ms ≤ st.elapsedMs

/-- The signal passed by the image-post page fetch:
`AbortSignal.any([signal, AbortSignal.timeout(10000)])`. -/
def imagePostsQuerySignal : List AbortSource :=
  [.caller, .timeout 10000]

/-- The signal passed by the reaction aggregation fetch:
`AbortSignal.any([c.signal, AbortSignal.timeout(3000)])`. -/
def reactionsQuerySignal : List AbortSource :=
  [.caller, .timeout 3000]

/-- The signal passed by the remove-reaction lookup of the viewer's existing
reactions: `AbortSignal.timeout(3000)` alone. -/
def removeReactionQuerySignal : List AbortSource :=
  [.timeout 3000]

/-- Claim C4 (counterexample): the remove-reaction lookup's signal contains
no caller-provided token, and concretely it is not aborted when the caller's
token has fired but no time has elapsed. -/
theorem C4_counterexample :
    AbortSource.caller ∉ removeReactionQuerySignal ∧
    signalAborted removeReactionQuerySignal { callerAborted := true, elapsedMs := 0 } = false := by
  decide

/-- Claim C4 (amended): the image-post page fetch and the reaction
aggregation fetch combine the caller token with their fixed timeouts, so
either firing aborts the query; the remove-reaction lookup carries only its
fixed 3-second timeout, which aborts it once elapsed. -/
theorem C4_query_signals :
    (AbortSource.caller ∈ imagePostsQuerySignal ∧
     AbortSource.timeout 10000 ∈ imagePostsQuerySignal ∧
     ∀ st : SignalState, (st.callerAborted = true ∨ 10000 ≤ st.elapsedMs) →
       signalAborted imagePostsQuerySignal st = true) ∧
    (AbortSource.caller ∈ reactionsQuerySignal ∧
     AbortSource.timeout 3000 ∈ reactionsQuerySignal ∧
     ∀ st : SignalState, (st.callerAborted = true ∨ 3000 ≤ st.elapsedMs) →
       signalAborted reactionsQuerySignal st = true) ∧
    (AbortSource.caller ∉ removeReactionQuerySignal ∧
     AbortSource.timeout 3000 ∈ removeReactionQuerySignal ∧
     ∀ st : SignalState, 3000 ≤ st.elapsedMs →
       signalAborted removeReactionQuerySignal st = true) := by
  refine ⟨⟨by decide, by decide, ?_⟩, ⟨by decide, by decide, ?_⟩, ⟨by decide, by decide, ?_⟩⟩
  · rintro st (h | h) <;> simp [signalAborted, imagePostsQuerySignal, h]
  · rintro st (h | h) <;> simp [signalAborted, reactionsQuerySignal, h]
  · intro st h
    simp [signalAborted, removeReactionQuerySignal, h]

theorem C4_query_signals_witness :
    signalAborted imagePostsQuerySignal { callerAborted := true, elapsedMs := 0 } = true ∧
    signalAborted reactionsQuerySignal { callerAborted := false, elapsedMs := 3000 } = true ∧
    signalAborted removeReactionQuerySignal { callerAborted := false, elapsedMs := 3000 } = true :=
  ⟨C4_query_signals.1.2.2 _ (Or.inl rfl),
   C4_query_signals.2.1.2.2 _ (Or.inr (by decide)),
   C4_query_signals.2.2.2.2 _ (by decide)⟩

/-- `validateReactionEvent` from the reactions hook file: kind 7, an `e` tag
with a truthy value and a `p` tag with a truthy value. -/
def validateReactionEvent (e : NostrEvent) : Bool :=
  if e.kind != 7 then false
  else
    match findTag "e" e.tags with
    | none => false
    | some eTag =>
      match eTag[1]? with
      | none => false
      | some ev =>
        if ev == "" then false
        else
          match findTag "p" e.tags with
          | none => false
          | some pTag =>
            match pTag[1]? with
            | none => false
            | some pv => !(pv == "")

/-- One entry of the reaction aggregate: count, reacting authors, and
whether the current viewer reacted with this content. -/
structure ReactionSummary where
  count : Nat
  users : List String
  hasReacted : Bool
deriving Repr, DecidableEq

/-- Lookup in a JS-object-like insertion-ordered association list. -/
def lookupAssoc : List (String × ReactionSummary) → String → Option ReactionSummary
  | [], _ => none
  | (k', v') :: rest, k => if k' == k then some v' else lookupAssoc rest k

/-- In-place update of a key (JS property assignment): replaces the existing
binding, else appends a new one, keeping insertion order. -/
def setAssoc : List (String × ReactionSummary) → String → ReactionSummary →
    List (String × ReactionSummary)
  | [], k, v => [(k, v)]
  | (k', v') :: rest, k, v =>
      if k' == k then (k, v) :: rest else (k', v') :: setAssoc rest k v

/-- One step of the reduce in `useReactions`: empty content defaults to
`"+"`; the entry's count is incremented, the author appended, and
`hasReacted` set when the author is the current viewer. -/
def applyReaction (viewer : Option String) (acc : List (String × ReactionSummary))
    (r : NostrEvent) : List (String × ReactionSummary) :=
  let content := if r.content == "" then "+" else r.content
  let entry :=
    match lookupAssoc acc content with
    | some s => s
    | none => { count := 0, users := [], hasReacted := false }
  setAssoc acc content
    { count := entry.count + 1
      users := entry.users ++ [r.pubkey]
      hasReacted := entry.hasReacted ||
        (match viewer with
         | some pk => r.pubkey == pk
         | none => false) }

/-- The query function of `useReactions` as a function of the current
viewer's pubkey and the relay response: validate, then fold into the
aggregate. -/
def reactionsQueryFn (viewer : Option String) (events : List NostrEvent) :
    List (String × ReactionSummary) :=
  (events.filter validateReactionEvent).foldl (applyReaction viewer) []

/-- A valid reaction event fixture. -/
def mkReaction (rid author content : String) : NostrEvent :=
  { id := rid, pubkey := author, created_at := 1, kind := 7, content := content,
    tags := [["e", "target"], ["p", "targetAuthor"]] }

/-- Claim C7: on three valid reactions with contents `+`, `+`, `🔥` from
distinct authors, the aggregate is `+ ↦ count 2` and `🔥 ↦ count 1` with the
authors recorded; with the viewer equal to one author, `hasReacted` holds
exactly for that author's content entry. -/
theorem C7_reaction_aggregation :
    reactionsQueryFn (some "carol")
        [mkReaction "r1" "alice" "+", mkReaction "r2" "bob" "+", mkReaction "r3" "carol" "🔥"] =
      [("+", { count := 2, users := ["alice", "bob"], hasReacted := false }),
       ("🔥", { count := 1, users := ["carol"], hasReacted := true })] ∧
    reactionsQueryFn (some "alice")
        [mkReaction "r1" "alice" "+", mkReaction "r2" "bob" "+", mkReaction "r3" "carol" "🔥"] =
      [("+", { count := 2, users := ["alice", "bob"], hasReacted := true }),
       ("🔥", { count := 1, users := ["carol"], hasReacted := false })] := by
  decide

/-- A logged-in user as seen by the hooks: a pubkey and whether a signer is
attached. -/
structure User where
  pubkey : String
  signer : Bool
deriving Repr, DecidableEq

/-- JS `user?.signer` truthiness. -/
def signerPresent : Option User → Bool
  | none => false
  | some u => u.signer

/-- The unsigned fields handed to `signer.signEvent`. -/
structure UnsignedEvent where
  kind : Nat
  content : String
  tags : List (List String)
  created_at : Nat
deriving Repr, DecidableEq

/-- Calls made to the external signer and relay pool by a mutation. -/
inductive Effect where
  | sign (e : UnsignedEvent)
  | publish (e : UnsignedEvent)
deriving Repr, DecidableEq

/-- The errors thrown by the mutation hooks: `'User not logged in'` and
`'Reaction not found'`. -/
inductive MutationError where
  | notLoggedIn
  | reactionNotFound
deriving Repr, DecidableEq

/-- The mutation function of `useReactToPost`: requires a signer, then signs
and publishes a kind-7 reaction event referencing the target, its author and
its kind. -/
def reactToPostMutation (user : Option User) (eventId authorPubkey reaction kind : String)
    (now : Nat) : Except MutationError UnsignedEvent × List Effect :=
  if !(signerPresent user) then (.error .notLoggedIn, [])
  else
    let ev : UnsignedEvent :=
      { kind := 7, content := reaction
        tags := [["e", eventId], ["p", authorPubkey], ["k", kind]]
        created_at := now }
    (.ok ev, [.sign ev, .publish ev])

/-- The predicate locating the reaction to remove:
`(r.content || '+') === reaction`. -/
def reactionMatches (reaction : String) (r : NostrEvent) : Bool :=
  (if r.content == "" then "+" else r.content) == reaction

/-- The mutation function of `useRemoveReaction`, given the relay's response
to the lookup of the viewer's existing reactions: requires a signer; fails
with not-found when no existing reaction matches; otherwise signs and
publishes a kind-5 deletion event referencing the located reaction's id. -/
def removeReactionMutation (user : Option User) (existingReactions : List NostrEvent)
    (reaction : String) (now : Nat) : Except MutationError UnsignedEvent × List Effect :=
  if !(signerPresent user) then (.error .notLoggedIn, [])
  else
    match existingReactions.find? (reactionMatches reaction) with
    | none => (.error .reactionNotFound, [])
    | some r =>
      let del : UnsignedEvent :=
        { kind := 5, content := "Removing reaction"
          tags := [["e", r.id]], created_at := now }
      (.ok del, [.sign del, .publish del])

/-- Claim C5: with a signer present but no existing reaction whose
(defaulted) content matches the requested one, the remove-reaction mutation
fails with not-found and records no sign and no publish call. -/
theorem C5_remove_not_found (user : Option User) (hs : signerPresent user = true)
    (existing : List NostrEvent) (reaction : String) (now : Nat)
    (hmatch : ∀ r ∈ existing, reactionMatches reaction r = false) :
    removeReactionMutation user existing reaction now = (.error .reactionNotFound, []) := by
  unfold removeReactionMutation
  rw [hs]
  simp only [Bool.not_true, Bool.false_eq_true, if_false]
  rw [List.find?_eq_none.2 (fun r hr => by simp [hmatch r hr])]

theorem C5_remove_not_found_witness :
    removeReactionMutation (some { pubkey := "carol", signer := true })
        [mkReaction "r9" "carol" "🔥"] "+" 7 = (.error .reactionNotFound, []) :=
  C5_remove_not_found _ (by decide) _ _ _ (by decide)

/-- Claim C6: without a signer the add-reaction mutation fails with the
authentication error and records no sign and no publish call. -/
theorem C6_react_requires_signer (user : Option User) (hs : signerPresent user = false)
    (eventId authorPubkey reaction kind : String) (now : Nat) :
    reactToPostMutation user eventId authorPubkey reaction kind now =
      (.error .notLoggedIn, []) := by
  unfold reactToPostMutation
  rw [hs]
  rfl

theorem C6_react_requires_signer_witness :
    reactToPostMutation none "target" "targetAuthor" "+" "20" 7 =
      (.error .notLoggedIn, []) :=
  C6_react_requires_signer none (by decide) "target" "targetAuthor" "+" "20" 7

/-- Claim C9: an empty-content reaction is treated as the default `"+"`:
folding it into the aggregate equals folding the same event with content
`"+"`, the removal predicate with requested content `"+"` matches it, and
the remove-reaction mutation with a signer does not fail with not-found when
such a reaction is among the viewer's existing ones. -/
theorem C9_empty_content_defaults (viewer : Option String)
    (acc : List (String × ReactionSummary)) (r : NostrEvent) (h : r.content = "")
    (user : Option User) (hs : signerPresent user = true) (rest : List NostrEvent)
    (now : Nat) :
    applyReaction viewer acc r = applyReaction viewer acc { r with content := "+" } ∧
    reactionMatches "+" r = true ∧
    (removeReactionMutation user (r :: rest) "+" now).1 ≠ .error .reactionNotFound := by
  have hm : reactionMatches "+" r = true := by simp [reactionMatches, h]
  refine ⟨by simp [applyReaction, h], hm, ?_⟩
  unfold removeReactionMutation
  rw [hs]
  simp [List.find?_cons, hm]

theorem C9_empty_content_defaults_witness :
    applyReaction (some "dan") [] (mkReaction "r4" "dan" "") =
        applyReaction (some "dan") [] { mkReaction "r4" "dan" "" with content := "+" } ∧
    reactionMatches "+" (mkReaction "r4" "dan" "") = true ∧
    (removeReactionMutation (some { pubkey := "dan", signer := true })
        [mkReaction "r4" "dan" ""] "+" 7).1 ≠ .error .reactionNotFound :=
  C9_empty_content_defaults (some "dan") [] (mkReaction "r4" "dan" "") rfl
    (some { pubkey := "dan", signer := true }) (by decide) [] 7

/-- The fixed discovery relay list configured into the shared pool. -/
def discoveryRelays : List String :=
  ["wss://relay.nostr.band", "wss://relay.primal.net", "wss://relay.olas.app",
   "wss://nos.lol", "wss://relay.snort.social", "wss://purplepag.es"]

/-- The pool configuration: one logical connection per relay address, the
request router fanning each query out to every configured relay, and the
event router publishing to the first three. -/
structure NPool where
  relayUrls : List String
  eventRelays : List String
deriving Repr, DecidableEq

/-- The pool built on the first call to `getDiscoveryPool`. -/
def mkDiscoveryPool : NPool :=
  { relayUrls := discoveryRelays, eventRelays := discoveryRelays.take 3 }

/-- The request router of the discovery pool: every configured relay
receives the same filters. -/
def reqRouter (pool : NPool) (filters : List Filter) : List (String × List Filter) :=
  pool.relayUrls.map (fun url => (url, filters))

/-- `getDiscoveryPool` with the module-level mutable `sharedDiscoveryPool`
made explicit: input state in, (returned pool, output state, number of pool
constructions performed) out. -/
def getDiscoveryPool (shared : Option NPool) : NPool × Option NPool × Nat :=
  match shared with
  | some p => (p, some p, 0)
  | none => (mkDiscoveryPool, some mkDiscoveryPool, 1)

/-- Claim C8: the first call from the initial empty state constructs the
pool once, and from any state a second call returns exactly the pool the
first call returned, leaves the cached state unchanged, and performs no
construction. -/
theorem C8_pool_memoized :
    ((getDiscoveryPool none).2.2 = 1 ∧ (getDiscoveryPool none).1 = mkDiscoveryPool) ∧
    (∀ shared : Option NPool,
      (getDiscoveryPool ((getDiscoveryPool shared).2.1)).1 = (getDiscoveryPool shared).1 ∧
      (getDiscoveryPool ((getDiscoveryPool shared).2.1)).2.1 = (getDiscoveryPool shared).2.1 ∧
      (getDiscoveryPool ((getDiscoveryPool shared).2.1)).2.2 = 0) := by
  refine ⟨⟨rfl, rfl⟩, ?_⟩
  intro shared
  cases shared <;> exact ⟨rfl, rfl, rfl⟩

end Zappix
